import Mathlib

/-!
Verification of the configuration validator of the mail-deduplicate
package, as a shallow embedding of `src/mail_deduplicate/__init__.py`
(`Config.__init__`, `Config.__getattr__`, module constants), together
with spec-modelled components of the deduplication engine (fingerprint
computation and fuzzy pair validation) whose code is not part of the
available sources.
-/

namespace MailDedup

/-- Python values that can appear as configuration option values in the
embedding: `None`, booleans, integers, strings, and lists of strings. -/
inductive Val where
  | none
  | bool (b : Bool)
  | int (n : Int)
  | str (s : String)
  | strList (l : List String)
deriving DecidableEq

/-- Exceptions that `Config.__init__` can raise: the `ValueError` naming
unrecognized options (line 144), a bare `AssertionError` from the
threshold and header-character asserts (lines 150, 151, 161, 162), a
`TypeError` from operating on a value of the wrong dynamic type, the
`ValueError` raised by `max()` on an empty sequence (line 161 when a
header name is empty), and the `FileExistsError` carrying the resolved
export path (line 170). -/
inductive ConfigError where
  | unrecognizedOptions (opts : List String)
  | assertionError
  | typeError
  | emptySequence
  | fileExists (path : String)
deriving DecidableEq

/-- Filesystem oracle modelling `pathlib.Path.resolve` (line 168) and
`Path.exists` (line 169). -/
structure FS where
  resolvePath : String → String
  pathExists : String → Bool

/-- Python truthiness of a value, as used by `if self.export:` (line 167). -/
def Val.truthy : Val → Bool
  | .none => false
  | .bool b => b
  | .int n => n != 0
  | .str s => s != ""
  | .strList l => !l.isEmpty

/-- Numeric view of a value, used by the comparisons `v >= -1`
(lines 150, 151); Python booleans are integers 0 and 1, and comparing a
non-number against an int raises `TypeError`. -/
def Val.asNumber : Val → Except ConfigError Int
  | .int n => .ok n
  | .bool b => .ok (if b then 1 else 0)
  | _ => .error .typeError

/-- Iteration of a Python value by the list comprehension
`[h.lower() for h in self.hash_headers]` (line 154): a list of strings
yields its items, a string yields its one-character substrings, and any
other value raises `TypeError`. -/
def Val.iterStrs : Val → Except ConfigError (List String)
  | .strList l => .ok l
  | .str s => .ok (s.data.map (fun c => String.mk [c]))
  | _ => .error .typeError

/-- Ordered list of headers used by default to compute the hash of a
mail (module constant `HASH_HEADERS`, lines 43-66). -/
def HASH_HEADERS : List String :=
  ["Date", "From", "To", "Subject", "MIME-Version", "Content-Type",
   "Content-Disposition", "User-Agent", "X-Priority", "Message-ID"]

/-- Below this number of found headers there is not enough data to
compute a solid hash (module constant, line 70). -/
def MINIMAL_HEADERS_COUNT : Nat := 4

/-- Default size-difference threshold in bytes (line 84). -/
def DEFAULT_SIZE_THRESHOLD : Int := 512

/-- Default content-difference threshold in bytes (line 89). -/
def DEFAULT_CONTENT_THRESHOLD : Int := 768

/-- Default configuration mapping `Config.default_conf` (lines 118-135),
in its source order. -/
def defaultConf : List (String × Val) :=
  [("dry_run", .bool false),
   ("input_format", .bool false),
   ("force_unlock", .bool false),
   ("hash_only", .bool false),
   ("hash_headers", .strList HASH_HEADERS),
   ("hash_body", .none),
   ("size_threshold", .int DEFAULT_SIZE_THRESHOLD),
   ("content_threshold", .int DEFAULT_CONTENT_THRESHOLD),
   ("show_diff", .bool false),
   ("strategy", .none),
   ("time_source", .none),
   ("regexp", .none),
   ("action", .none),
   ("export", .none),
   ("export_format", .str "mbox"),
   ("export_append", .bool false)]

/-- Recognized option names: the keys of `default_conf`. -/
def defaultKeys : List String := defaultConf.map Prod.fst

/-- The option names supplied in `kwargs` that are not recognized:
`set(kwargs) - set(self.default_conf)` (line 142).  Python keyword
arguments form a dict, so the supplied keys are pairwise distinct and
their order of appearance is kept here. -/
def unrecognizedOf (kwargs : List (String × Val)) : List String :=
  (kwargs.map Prod.fst).filter (fun k => !(defaultKeys.contains k))

/-- The unrecognized-option check of lines 142-144: raises `ValueError`
naming the unrecognized options when there is at least one. -/
def checkOptions (kwargs : List (String × Val)) : Except ConfigError Unit :=
  if unrecognizedOf kwargs = [] then .ok ()
  else .error (.unrecognizedOptions (unrecognizedOf kwargs))

/-- The configuration mapping after `self.conf.update(kwargs)`
(line 147): every default entry overridden by the supplied value when
one was supplied. -/
def mergeConf (kwargs : List (String × Val)) : List (String × Val) :=
  defaultConf.map (fun p => (p.1, (List.lookup p.1 kwargs).getD p.2))

/-- Lookup of a configuration entry, as performed by `__getattr__`
during `__init__` (a missing key yields Python `None`). -/
def confGet (conf : List (String × Val)) (k : String) : Val :=
  (List.lookup k conf).getD .none

/-- Python `str.lower` (line 154).  The embedding lowers ASCII letters;
this is exact on the printable-ASCII range the validator accepts. -/
def lower (s : String) : String := String.mk (s.data.map Char.toLower)

/-- Accumulator loop of `boltons.iterutils.unique` (line 156): keeps the
first occurrence of each value, preserving first-seen order. -/
def uniqueAux (seen : List String) : List String → List String
  | [] => []
  | x :: xs =>
      if x ∈ seen then uniqueAux seen xs
      else x :: uniqueAux (x :: seen) xs

/-- `boltons.iterutils.unique` (line 156). -/
def unique (l : List String) : List String := uniqueAux [] l

/-- Per-header check of lines 160-162: `max(set(map(ord, hid))) <= 126`
and `min(set(map(ord, hid))) >= 33`.  For an empty name, `max()` raises
`ValueError` (empty sequence) before any assert runs. -/
def checkHeader (hid : String) : Except ConfigError Unit :=
  if hid.data.isEmpty then .error .emptySequence
  else if hid.data.all (fun c => c.toNat ≤ 126) then
    if hid.data.all (fun c => 33 ≤ c.toNat) then .ok ()
    else .error .assertionError
  else .error .assertionError

/-- The loop of lines 159-162 over the normalized header names, stopping
at the first raised exception. -/
def checkHeaders : List String → Except ConfigError Unit
  | [] => .ok ()
  | hid :: rest =>
      match checkHeader hid with
      | .error e => .error e
      | .ok () => checkHeaders rest

/-- The threshold asserts of lines 150-151, on already-numeric values:
both thresholds must be at least -1. -/
def checkThresholds (st ct : Int) : Except ConfigError Unit :=
  if st < -1 then .error .assertionError
  else if ct < -1 then .error .assertionError
  else .ok ()

/-- The export check of lines 166-170: when the export value is truthy
it must be a string (else `Path()` raises `TypeError`); the path is
resolved, and if it exists while `export_append is not True` a
`FileExistsError` carrying the resolved path is raised.  On success the
resolved path (stored into the instance attribute `export`) is
returned. -/
def checkExport (fs : FS) (ev appendVal : Val) :
    Except ConfigError (Option String) :=
  if ev.truthy then
    match ev with
    | .str s =>
        let resolved := fs.resolvePath s
        if fs.pathExists resolved ∧ appendVal ≠ Val.bool true then
          .error (.fileExists resolved)
        else .ok (some resolved)
    | _ => .error .typeError
  else .ok Option.none

/-- A successfully constructed `Config` object: its `conf` dict, plus
the instance attributes set during `__init__`: the normalized
`hash_headers` tuple (line 163) and, when an export destination was
given, the resolved `export` path (line 168). -/
structure Config where
  conf : List (String × Val)
  hash_headers : List String
  exportResolved : Option String
deriving DecidableEq

/-- `Config.__init__` (lines 137-170): copy defaults, reject
unrecognized options, merge the supplied options, assert the thresholds,
normalize and check the header names, then check the export
destination. -/
def construct (fs : FS) (kwargs : List (String × Val)) :
    Except ConfigError Config :=
  match checkOptions kwargs with
  | .error e => .error e
  | .ok () =>
      match Val.asNumber (confGet (mergeConf kwargs) "size_threshold") with
      | .error e => .error e
      | .ok st =>
          if st < -1 then .error .assertionError
          else
            match Val.asNumber (confGet (mergeConf kwargs) "content_threshold") with
            | .error e => .error e
            | .ok ct =>
                if ct < -1 then .error .assertionError
                else
                  match Val.iterStrs (confGet (mergeConf kwargs) "hash_headers") with
                  | .error e => .error e
                  | .ok hs =>
                      match checkHeaders (unique (hs.map lower)) with
                      | .error e => .error e
                      | .ok () =>
                          match checkExport fs (confGet (mergeConf kwargs) "export")
                              (confGet (mergeConf kwargs) "export_append") with
                          | .error e => .error e
                          | .ok res =>
                              .ok { conf := mergeConf kwargs,
                                    hash_headers := unique (hs.map lower),
                                    exportResolved := res }

/-- A concrete filesystem oracle on which no path exists. -/
def fsE : FS := { resolvePath := fun s => s, pathExists := fun _ => false }

instance {ε α : Type} [DecidableEq ε] [DecidableEq α] :
    DecidableEq (Except ε α) := fun x y =>
  match x, y with
  | .error a, .error b =>
      if h : a = b then .isTrue (by rw [h]) else .isFalse (by simp [h])
  | .ok a, .ok b =>
      if h : a = b then .isTrue (by rw [h]) else .isFalse (by simp [h])
  | .error _, .ok _ => .isFalse (by simp)
  | .ok _, .error _ => .isFalse (by simp)

/-- Specification-side reading of "with every name lower-cased and with
duplicate names removed, keeping only the first occurrence of each name
and preserving the first-seen order": keep the head and delete its later
duplicates, recursively. -/
def firstSeenDedup : List String → List String
  | [] => []
  | x :: xs => x :: firstSeenDedup (xs.filter (fun y => y != x))
termination_by l => l.length
decreasing_by
  simp only [List.length_cons]
  exact Nat.lt_succ_of_le (List.length_filter_le _ _)

/-- Result of a Python attribute access on a `Config` object: `None`
(from `__getattr__` falling through, lines 172-175), a configuration or
attribute value, or a dict-valued attribute (`conf`, `default_conf`). -/
inductive Attr where
  | pyNone
  | val (v : Val)
  | dict (m : List (String × Val))
deriving DecidableEq

/-- Data attributes that resolve before `__getattr__` is consulted: the
instance attributes `conf` (line 140), `hash_headers` (line 163) and,
when an export destination was given, `export` (line 168), plus the
class attribute `default_conf` (line 118).  Methods and inherited dunder
attributes are outside the embedded data model. -/
def Config.realAttrs (c : Config) : List String :=
  ["conf", "hash_headers", "default_conf"]
    ++ (match c.exportResolved with | some _ => ["export"] | Option.none => [])

/-- Python attribute access on a constructed `Config`: instance and
class data attributes first, then `__getattr__` (lines 172-175), which
returns the `conf` entry when the name is a key and otherwise falls off
the end of the function, producing `None`. -/
def Config.getattr (c : Config) (a : String) : Attr :=
  if a = "conf" then .dict c.conf
  else if a = "hash_headers" then .val (.strList c.hash_headers)
  else if a = "export" then
    match c.exportResolved with
    | some p => .val (.str p)
    | Option.none =>
        match List.lookup a c.conf with
        | some v => .val v
        | Option.none => .pyNone
  else if a = "default_conf" then .dict defaultConf
  else
    match List.lookup a c.conf with
    | some v => .val v
    | Option.none => .pyNone

/-! ### Spec-modelled deduplication engine

The fingerprinting and fuzzy-validation code of the engine is not part
of the available sources (only the exception classes and the module
constants of `__init__.py` are); the definitions below are modelled from
the specification. -/

/-- Modelled from the spec: a Message is "an ordered mapping of header
name (case-insensitive) to one or more header values, a byte payload"
(spec section 3).  Headers are kept as an ordered list of name-value
pairs so that a name may repeat; the payload is a byte list. -/
structure Message where
  headers : List (String × String)
  payload : List Nat
deriving DecidableEq

/-- Errors reported by the engine, mirroring the exception classes
`TooFewHeaders`, `SizeDiffAboveThreshold` and `ContentDiffAboveThreshold`
of lines 98-110. -/
inductive DedupError where
  | TooFewHeaders
  | SizeDiffAboveThreshold
  | ContentDiffAboveThreshold
deriving DecidableEq

/-- Modelled from the spec: all occurrences of one configured header in
a message, looked up case-insensitively (spec section 4.2, Header
Canonicalizer). -/
def headerOccurrences (msg : Message) (name : String) : List String :=
  (msg.headers.filter (fun p => lower p.1 = lower name)).map Prod.snd

/-- Modelled from the spec: the canonical ordered sequence of
(header-name, value) pairs, "preserving the configured order (not the
message's native header order) and including all occurrences when a
header repeats"; an absent configured header is simply omitted (spec
section 4.2). -/
def canonicalHeaders (configured : List String) (msg : Message) :
    List (String × String) :=
  (configured.map (fun n => (headerOccurrences msg n).map (fun v => (n, v)))).flatten

/-- Modelled from the spec: the "count of headers actually found" among
the configured header names (spec section 4.2). -/
def foundHeadersCount (configured : List String) (msg : Message) : Nat :=
  (configured.filter (fun n => !(headerOccurrences msg n).isEmpty)).length

/-- Modelled from the spec: a Fingerprint is "a fixed-size opaque digest
derived deterministically from canonicalized header material" (spec
section 3).  The digest function is modelled as injective, so the digest
is carried as the canonical material itself. -/
structure Fingerprint where
  digest : List (String × String)
deriving DecidableEq

/-- Modelled from the spec: the Fingerprint Engine "fails with a
TooFewHeaders condition when the found-header count is below the
configured minimum" and otherwise produces the digest of the canonical
header sequence (spec section 4.3). -/
def fingerprintMessage (configured : List String) (minCount : Nat)
    (msg : Message) : Except DedupError Fingerprint :=
  if foundHeadersCount configured msg < minCount then .error .TooFewHeaders
  else .ok ⟨canonicalHeaders configured msg⟩

/-- Payload byte size of a message. -/
def payloadSize (msg : Message) : Nat := msg.payload.length

/-- Absolute difference in payload byte size between two messages. -/
def sizeDelta (a b : Message) : Nat :=
  ((payloadSize a : Int) - (payloadSize b : Int)).natAbs

/-- Modelled from the spec: the Fuzzy Validator "verifies pairwise that
(a) the absolute difference in payload byte-size between any two members
does not exceed the size-diff threshold, and (b) the size of a unified
diff between their payload contents does not exceed the content-diff
threshold", reporting `SizeDiffAboveThreshold` or
`ContentDiffAboveThreshold` on failure; "a threshold value of -1 always
passes (feature disabled)" (spec sections 4.5 and 7).  The size of the
unified diff between two payloads is abstracted as the parameter
`diffSize`. -/
def validatePair (sizeT contentT : Int)
    (diffSize : List Nat → List Nat → Nat) (a b : Message) :
    Except DedupError Unit :=
  if sizeT > -1 ∧ (sizeDelta a b : Int) > sizeT then
    .error .SizeDiffAboveThreshold
  else if contentT > -1 ∧ (diffSize a.payload b.payload : Int) > contentT then
    .error .ContentDiffAboveThreshold
  else .ok ()

/-! ### Concrete inputs used by witnesses and counterexamples -/

/-- Concrete message exposing 3 of 4 configured headers. -/
def msg3 : Message :=
  { headers := [("Date", "d"), ("From", "f"), ("To", "t")], payload := [] }

/-- Concrete message exposing 4 of 4 configured headers. -/
def msg4 : Message :=
  { headers := [("Date", "d"), ("From", "f"), ("To", "t"), ("Subject", "s")],
    payload := [] }

/-- Concrete message with a one-byte payload. -/
def msgA : Message := { headers := [("Date", "d")], payload := [0] }

/-- Concrete message with an empty payload. -/
def msgB : Message := { headers := [("Date", "d")], payload := [] }

/-- Concrete keyword mapping supplying a header list with mixed case and
a duplicate. -/
def kwC2 : List (String × Val) :=
  [("hash_headers", Val.strList ["From", "Date", "from"])]

/-- The Config object produced from kwC2. -/
def cfgC2 : Config :=
  { conf := mergeConf kwC2, hash_headers := ["from", "date"],
    exportResolved := Option.none }

/-- A filesystem oracle on which exactly the path "X" exists. -/
def fsX : FS := { resolvePath := fun s => s, pathExists := fun p => p == "X" }

/-- The Config object produced by a run with no options supplied. -/
def cfgDefault : Config :=
  { conf := defaultConf,
    hash_headers := ["date", "from", "to", "subject", "mime-version",
      "content-type", "content-disposition", "user-agent", "x-priority",
      "message-id"],
    exportResolved := Option.none }

/-- Concrete keyword mapping supplying only dry_run. -/
def kwC6 : List (String × Val) := [("dry_run", Val.bool true)]

/-- The Config object produced from kwC6. -/
def cfgC6 : Config :=
  { conf := mergeConf kwC6, hash_headers := cfgDefault.hash_headers,
    exportResolved := Option.none }

/-! ### Helper lemmas -/

theorem lookup_map_update (kwargs : List (String × Val)) (k : String)
    (l : List (String × Val)) :
    List.lookup k (l.map (fun p => (p.1, (List.lookup p.1 kwargs).getD p.2)))
      = (List.lookup k l).map (fun d => (List.lookup k kwargs).getD d) := by
  induction l with
  | nil => simp
  | cons p rest ih =>
      rcases p with ⟨k1, v1⟩
      by_cases hk : k = k1
      · subst hk
        simp [List.lookup_cons]
      · have hbeq : (k == k1) = false := by simp [hk]
        simp [List.lookup_cons, hbeq, ih]

theorem lookup_mergeConf (kwargs : List (String × Val)) (k : String) :
    List.lookup k (mergeConf kwargs)
      = (List.lookup k defaultConf).map (fun d => (List.lookup k kwargs).getD d) :=
  lookup_map_update kwargs k defaultConf

theorem mem_uniqueAux (x : String) (l : List String) :
    ∀ seen, x ∈ uniqueAux seen l ↔ x ∈ l ∧ x ∉ seen := by
  induction l with
  | nil => intro seen; simp [uniqueAux]
  | cons y ys ih =>
      intro seen
      by_cases hy : y ∈ seen
      · rw [uniqueAux, if_pos hy, ih seen]
        simp only [List.mem_cons]
        constructor
        · rintro ⟨hxs, hns⟩
          exact ⟨Or.inr hxs, hns⟩
        · rintro ⟨rfl | hxs, hns⟩
          · exact absurd hy hns
          · exact ⟨hxs, hns⟩
      · rw [uniqueAux, if_neg hy]
        simp only [List.mem_cons, ih (y :: seen), List.mem_cons, not_or]
        constructor
        · rintro (rfl | ⟨hxs, hne, hns⟩)
          · exact ⟨Or.inl rfl, hy⟩
          · exact ⟨Or.inr hxs, hns⟩
        · rintro ⟨rfl | hxs, hns⟩
          · exact Or.inl rfl
          · by_cases hxy : x = y
            · exact Or.inl hxy
            · exact Or.inr ⟨hxs, hxy, hns⟩

theorem mem_unique (x : String) (l : List String) : x ∈ unique l ↔ x ∈ l := by
  rw [unique, mem_uniqueAux]
  simp

theorem firstSeenDedup_nil : firstSeenDedup [] = [] := by
  rw [firstSeenDedup.eq_def]

theorem firstSeenDedup_cons (x : String) (xs : List String) :
    firstSeenDedup (x :: xs) = x :: firstSeenDedup (xs.filter (fun y => y != x)) := by
  rw [firstSeenDedup.eq_def]

theorem uniqueAux_eq_firstSeenDedup (l : List String) :
    ∀ seen, uniqueAux seen l
      = firstSeenDedup (l.filter (fun y => decide (y ∉ seen))) := by
  induction l with
  | nil => intro seen; simp [uniqueAux, firstSeenDedup_nil]
  | cons x xs ih =>
      intro seen
      by_cases hx : x ∈ seen
      · rw [uniqueAux, if_pos hx, ih seen, List.filter_cons]
        simp [hx]
      · rw [uniqueAux, if_neg hx, ih (x :: seen), List.filter_cons]
        have hd : decide (x ∉ seen) = true := by simpa using hx
        rw [hd, if_pos rfl, firstSeenDedup_cons, List.filter_filter]
        congr 2
        apply List.filter_congr
        intro y _
        by_cases h1 : y = x <;> by_cases h2 : y ∈ seen <;>
          simp [h1, h2, List.mem_cons]

theorem unique_eq_firstSeenDedup (l : List String) :
    unique l = firstSeenDedup l := by
  have h := uniqueAux_eq_firstSeenDedup l []
  simpa using h

theorem str_eq_empty_iff (s : String) : s = "" ↔ s.data = [] := by
  constructor
  · rintro rfl; rfl
  · intro h
    exact String.ext (by simpa using h)

theorem checkHeader_ok_iff (hid : String) :
    checkHeader hid = .ok () ↔
      hid ≠ "" ∧ ∀ c ∈ hid.data, 33 ≤ c.toNat ∧ c.toNat ≤ 126 := by
  unfold checkHeader
  split_ifs with he hmax hmin <;>
    simp_all [List.all_eq_true, List.isEmpty_iff, str_eq_empty_iff, forall_and]

theorem checkHeaders_ok_iff (l : List String) :
    checkHeaders l = .ok () ↔ ∀ h ∈ l, checkHeader h = .ok () := by
  induction l with
  | nil => simp [checkHeaders]
  | cons hid rest ih =>
      rw [checkHeaders]
      cases hh : checkHeader hid with
      | error e => simp [hh]
      | ok u => cases u; simp [hh, ih]

theorem isOk_iff_ok (x : Except ConfigError Config) :
    x.isOk = true ↔ ∃ a, x = .ok a := by
  cases x <;> simp [Except.isOk, Except.toBool]

/-- Inversion of a successful `Config.__init__` run: every check passed
and the resulting object carries the merged configuration, the
normalized headers, and the export-check result. -/
theorem construct_ok_inv (fs : FS) (kwargs : List (String × Val)) (cfg : Config)
    (h : construct fs kwargs = .ok cfg) :
    checkOptions kwargs = .ok () ∧
    cfg.conf = mergeConf kwargs ∧
    (∃ st, Val.asNumber (confGet (mergeConf kwargs) "size_threshold") = .ok st ∧
        ¬st < -1) ∧
    (∃ ct, Val.asNumber (confGet (mergeConf kwargs) "content_threshold") = .ok ct ∧
        ¬ct < -1) ∧
    (∃ hs, Val.iterStrs (confGet (mergeConf kwargs) "hash_headers") = .ok hs ∧
        cfg.hash_headers = unique (hs.map lower) ∧
        checkHeaders (unique (hs.map lower)) = .ok ()) ∧
    checkExport fs (confGet (mergeConf kwargs) "export")
        (confGet (mergeConf kwargs) "export_append") = .ok cfg.exportResolved := by
  unfold construct at h
  split at h
  next e heq => exact absurd h (by simp)
  next heq0 =>
    split at h
    next e heq => exact absurd h (by simp)
    next st heq1 =>
      split at h
      next hstlt => exact absurd h (by simp)
      next hstlt =>
        split at h
        next e heq => exact absurd h (by simp)
        next ct heq2 =>
          split at h
          next hctlt => exact absurd h (by simp)
          next hctlt =>
            split at h
            next e heq => exact absurd h (by simp)
            next hs heq3 =>
              split at h
              next e heq => exact absurd h (by simp)
              next heq4 =>
                split at h
                next e heq => exact absurd h (by simp)
                next res heq5 =>
                  cases h
                  exact ⟨heq0, rfl, ⟨st, heq1, hstlt⟩, ⟨ct, heq2, hctlt⟩,
                    ⟨hs, heq3, rfl, heq4⟩, heq5⟩

/-- Effective `hash_headers` value after merging, when the option was
supplied. -/
theorem confGet_hash_headers (kwargs : List (String × Val)) (hs : List String)
    (hk : List.lookup "hash_headers" kwargs = some (Val.strList hs)) :
    confGet (mergeConf kwargs) "hash_headers" = Val.strList hs := by
  have hdc : List.lookup "hash_headers" defaultConf
      = some (Val.strList HASH_HEADERS) := by decide
  simp only [confGet]
  rw [lookup_mergeConf, hdc]
  simp [hk]

theorem lower_eq_empty_iff (s : String) : lower s = "" ↔ s = "" := by
  rw [str_eq_empty_iff, str_eq_empty_iff]
  simp [lower]

theorem unrecognizedOf_eq_nil_iff (kwargs : List (String × Val)) :
    unrecognizedOf kwargs = [] ↔ ∀ k ∈ kwargs.map Prod.fst, k ∈ defaultKeys := by
  simp [unrecognizedOf, List.filter_eq_nil_iff]

/-! ### Claims -/

/-- C1: for every keyword-argument mapping passed to Config
construction, if the mapping contains at least one option name that is
not among the recognized default option names, construction fails with a
ValueError naming the unrecognized options and no Configuration value is
produced; if every supplied option name is recognized, the
unrecognized-option check passes. -/
theorem C1_unrecognized_options (fs : FS) (kwargs : List (String × Val)) :
    (checkOptions kwargs = .ok () ↔ ∀ k ∈ kwargs.map Prod.fst, k ∈ defaultKeys) ∧
    (unrecognizedOf kwargs ≠ [] →
      construct fs kwargs = .error (.unrecognizedOptions (unrecognizedOf kwargs))) := by
  constructor
  · rw [← unrecognizedOf_eq_nil_iff, checkOptions]
    split_ifs with hnil <;> simp [hnil]
  · intro hne
    unfold construct
    rw [checkOptions, if_neg hne]

/-- Witness for C1 at a mapping carrying the unrecognized name "bogus". -/
theorem C1_unrecognized_options_witness :
    (unrecognizedOf [("bogus", Val.int 1)] ≠ []) ∧
    construct fsE [("bogus", Val.int 1)]
      = .error (.unrecognizedOptions (unrecognizedOf [("bogus", Val.int 1)])) :=
  ⟨by decide, (C1_unrecognized_options fsE [("bogus", Val.int 1)]).2 (by decide)⟩

/-- C3: Config construction fails whenever the effective size_threshold
or content_threshold is strictly less than -1, and the threshold check
passes exactly when both thresholds are at least -1 (so -1 itself is
accepted). -/
theorem C3_thresholds (fs : FS) (kwargs : List (String × Val)) (st ct : Int)
    (h1 : confGet (mergeConf kwargs) "size_threshold" = Val.int st)
    (h2 : confGet (mergeConf kwargs) "content_threshold" = Val.int ct) :
    ((st < -1 ∨ ct < -1) → (construct fs kwargs).isOk = false) ∧
    (checkThresholds st ct = .ok () ↔ (-1 ≤ st ∧ -1 ≤ ct)) := by
  constructor
  · intro hlt
    by_contra hok
    rw [Bool.not_eq_false, isOk_iff_ok] at hok
    obtain ⟨cfg, hcfg⟩ := hok
    obtain ⟨-, -, ⟨st', hst', hstlt⟩, ⟨ct', hct', hctlt⟩, -, -⟩ :=
      construct_ok_inv fs kwargs cfg hcfg
    rw [h1] at hst'
    rw [h2] at hct'
    simp only [Val.asNumber, Except.ok.injEq] at hst' hct'
    subst hst'
    subst hct'
    rcases hlt with hlt | hlt
    · exact hstlt hlt
    · exact hctlt hlt
  · unfold checkThresholds
    split_ifs with hst hct <;> simp <;> omega

/-- Witness for C3 at a supplied size_threshold of -2. -/
theorem C3_thresholds_witness :
    (confGet (mergeConf [("size_threshold", Val.int (-2))]) "size_threshold"
        = Val.int (-2)) ∧
    (confGet (mergeConf [("size_threshold", Val.int (-2))]) "content_threshold"
        = Val.int 768) ∧
    ((((-2 : Int) < -1 ∨ (768 : Int) < -1) →
        (construct fsE [("size_threshold", Val.int (-2))]).isOk = false) ∧
      (checkThresholds (-2) 768 = .ok () ↔ ((-1 : Int) ≤ -2 ∧ (-1 : Int) ≤ 768))) :=
  ⟨by decide, by decide,
    C3_thresholds fsE [("size_threshold", Val.int (-2))] (-2) 768
      (by decide) (by decide)⟩

/-- C7: fingerprinting yields the TooFewHeaders condition exactly when
the number of configured headers found in the message is strictly below
the configured minimum; at or above the minimum it always yields a
Fingerprint, and the default minimum MINIMAL_HEADERS_COUNT is 4. -/
theorem C7_minimal_headers (configured : List String) (minCount : Nat)
    (msg : Message) :
    (fingerprintMessage configured minCount msg = .error .TooFewHeaders ↔
      foundHeadersCount configured msg < minCount) ∧
    (¬foundHeadersCount configured msg < minCount →
      fingerprintMessage configured minCount msg
        = .ok ⟨canonicalHeaders configured msg⟩) ∧
    MINIMAL_HEADERS_COUNT = 4 := by
  refine ⟨?_, ?_, rfl⟩ <;> unfold fingerprintMessage <;>
    split_ifs with h <;> simp [h]

/-- Witness for C7: at the default minimum of 4, a message with exactly
3 found headers yields TooFewHeaders and one with exactly 4 yields a
Fingerprint. -/
theorem C7_minimal_headers_witness :
    fingerprintMessage ["date", "from", "to", "subject"] MINIMAL_HEADERS_COUNT msg3
        = .error .TooFewHeaders ∧
    fingerprintMessage ["date", "from", "to", "subject"] MINIMAL_HEADERS_COUNT msg4
        = .ok ⟨canonicalHeaders ["date", "from", "to", "subject"] msg4⟩ :=
  ⟨(C7_minimal_headers ["date", "from", "to", "subject"] MINIMAL_HEADERS_COUNT
      msg3).1.mpr (by decide),
    (C7_minimal_headers ["date", "from", "to", "subject"] MINIMAL_HEADERS_COUNT
      msg4).2.1 (by decide)⟩

/-- C8: for every pair of messages and every non-negative size
threshold, the fuzzy validator accepts the pair on the size criterion
when the absolute payload-size delta equals the threshold exactly, and
splits the pair with SizeDiffAboveThreshold when the delta is the
threshold plus one; analogously, with the size criterion satisfied, a
unified-diff size equal to the content threshold is accepted and one
byte more reports ContentDiffAboveThreshold. -/
theorem C8_threshold_boundary (t ct : Int)
    (dS : List Nat → List Nat → Nat) (a b : Message)
    (ht : 0 ≤ t) (hct : 0 ≤ ct) :
    ((sizeDelta a b : Int) = t →
      validatePair t ct dS a b ≠ .error .SizeDiffAboveThreshold) ∧
    ((sizeDelta a b : Int) = t + 1 →
      validatePair t ct dS a b = .error .SizeDiffAboveThreshold) ∧
    ((sizeDelta a b : Int) ≤ t → (dS a.payload b.payload : Int) = ct →
      validatePair t ct dS a b = .ok ()) ∧
    ((sizeDelta a b : Int) ≤ t → (dS a.payload b.payload : Int) = ct + 1 →
      validatePair t ct dS a b = .error .ContentDiffAboveThreshold) := by
  unfold validatePair
  refine ⟨?_, ?_, ?_, ?_⟩
  · intro hd
    rw [if_neg (by omega)]
    split_ifs <;> simp
  · intro hd
    rw [if_pos ⟨by omega, by omega⟩]
  · intro hsz hdf
    rw [if_neg (by omega), if_neg (by omega)]
  · intro hsz hdf
    rw [if_neg (by omega), if_pos ⟨by omega, by omega⟩]

/-- Witness for C8: with threshold 0, a one-byte delta (threshold plus
one) splits the pair. -/
theorem C8_threshold_boundary_witness :
    validatePair 0 0 (fun _ _ => 1) msgA msgB
      = .error .SizeDiffAboveThreshold :=
  (C8_threshold_boundary 0 0 (fun _ _ => 1) msgA msgB
    (by decide) (by decide)).2.1 (by decide)

/-- C2: for every successfully constructed Config, the resulting
hash_headers value equals the supplied header-name list with every name
lower-cased and with duplicate names removed, keeping only the first
occurrence of each name and preserving the first-seen order. -/
theorem C2_normalized_headers (fs : FS) (kwargs : List (String × Val))
    (hs : List String) (cfg : Config)
    (hk : List.lookup "hash_headers" kwargs = some (Val.strList hs))
    (h : construct fs kwargs = .ok cfg) :
    cfg.hash_headers = firstSeenDedup (hs.map lower) := by
  obtain ⟨-, -, -, -, ⟨hs', hiter, hnorm, -⟩, -⟩ := construct_ok_inv fs kwargs cfg h
  rw [confGet_hash_headers kwargs hs hk] at hiter
  simp only [Val.iterStrs, Except.ok.injEq] at hiter
  subst hiter
  rw [hnorm, unique_eq_firstSeenDedup]

/-- Witness for C2: ["From", "Date", "from"] normalizes to
["from", "date"]. -/
theorem C2_normalized_headers_witness :
    (List.lookup "hash_headers" kwC2
        = some (Val.strList ["From", "Date", "from"])) ∧
    (construct fsE kwC2 = .ok cfgC2) ∧
    cfgC2.hash_headers = firstSeenDedup ((["From", "Date", "from"]).map lower) :=
  ⟨by decide, by decide,
    C2_normalized_headers fsE kwC2 ["From", "Date", "from"] cfgC2
      (by decide) (by decide)⟩

/-- C4 counterexample: for the supplied header-name list [""], every
character of every lower-cased name lies in the range 33-126 vacuously,
yet construction does not succeed past the header-character check: it
raises the empty-sequence ValueError instead. -/
theorem C4_counterexample :
    (∀ h ∈ (([""] : List String).map lower), ∀ c ∈ h.data,
        33 ≤ c.toNat ∧ c.toNat ≤ 126) ∧
    construct fsE [("hash_headers", Val.strList [""])]
      = .error .emptySequence := by
  constructor
  · intro h hm c hc
    simp only [List.map, List.mem_singleton] at hm
    subst hm
    simp [lower] at hc
  · rfl

/-- C4 (amended): for every supplied header-name list whose names are
all nonempty, construction succeeds past the header-character check if
and only if every character of every lower-cased header name has an
ASCII code between 33 and 126 inclusive; a name containing a character
outside that range causes construction to fail. -/
theorem C4_header_characters (hs : List String) (hne : ∀ h ∈ hs, h ≠ "") :
    (checkHeaders (unique (hs.map lower)) = .ok () ↔
      ∀ h ∈ hs, ∀ c ∈ (lower h).data, 33 ≤ c.toNat ∧ c.toNat ≤ 126) ∧
    (∀ fs kwargs, List.lookup "hash_headers" kwargs = some (Val.strList hs) →
      (∃ h ∈ hs, ∃ c ∈ (lower h).data, ¬(33 ≤ c.toNat ∧ c.toNat ≤ 126)) →
      (construct fs kwargs).isOk = false) := by
  have hmem : ∀ h ∈ hs, lower h ∈ unique (hs.map lower) := fun h hh =>
    (mem_unique _ _).mpr (List.mem_map_of_mem lower hh)
  constructor
  · rw [checkHeaders_ok_iff]
    constructor
    · intro hall h hh c hc
      have hok := hall (lower h) (hmem h hh)
      rw [checkHeader_ok_iff] at hok
      exact hok.2 c hc
    · intro hrange x hx
      rw [mem_unique] at hx
      obtain ⟨h, hh, rfl⟩ := List.mem_map.mp hx
      rw [checkHeader_ok_iff]
      exact ⟨fun he => hne h hh ((lower_eq_empty_iff h).mp he), hrange h hh⟩
  · rintro fs kwargs hk ⟨h0, hh0, c0, hc0, hbad⟩
    by_contra hok
    rw [Bool.not_eq_false, isOk_iff_ok] at hok
    obtain ⟨cfg, hcfg⟩ := hok
    obtain ⟨-, -, -, -, ⟨hs', hiter, -, hchk⟩, -⟩ :=
      construct_ok_inv fs kwargs cfg hcfg
    rw [confGet_hash_headers kwargs hs hk] at hiter
    simp only [Val.iterStrs, Except.ok.injEq] at hiter
    subst hiter
    rw [checkHeaders_ok_iff] at hchk
    have hok0 := hchk (lower h0) (hmem h0 hh0)
    rw [checkHeader_ok_iff] at hok0
    exact hbad (hok0.2 c0 hc0)

/-- Witness for the amended C4: the name "B b" contains a space
(ASCII 32), so construction fails. -/
theorem C4_header_characters_witness :
    (construct fsE [("hash_headers", Val.strList ["Date", "B b"])]).isOk
      = false :=
  (C4_header_characters ["Date", "B b"] (by decide)).2 fsE
    [("hash_headers", Val.strList ["Date", "B b"])] (by decide) (by decide)

/-- C5: when an export destination is set (a nonempty string) and the
resolved destination path already exists while export_append is not
True, the export check fails with a FileExistsError carrying the
resolved path; when the destination does not exist, or append is
requested, the export check passes; construction only succeeds when the
export check passes. -/
theorem C5_export_exists (fs : FS) (s : String) (append : Val)
    (hs : s ≠ "") :
    (fs.pathExists (fs.resolvePath s) = true → append ≠ Val.bool true →
      checkExport fs (Val.str s) append
        = .error (.fileExists (fs.resolvePath s))) ∧
    (fs.pathExists (fs.resolvePath s) = false ∨ append = Val.bool true →
      checkExport fs (Val.str s) append = .ok (some (fs.resolvePath s))) ∧
    (∀ kwargs cfg, construct fs kwargs = .ok cfg →
      checkExport fs (confGet (mergeConf kwargs) "export")
          (confGet (mergeConf kwargs) "export_append")
        = .ok cfg.exportResolved) := by
  have htr : (Val.str s).truthy = true := by simp [Val.truthy, hs]
  refine ⟨?_, ?_, ?_⟩
  · intro hex hap
    unfold checkExport
    rw [if_pos htr]
    show (if fs.pathExists (fs.resolvePath s) = true ∧ append ≠ Val.bool true
        then Except.error (ConfigError.fileExists (fs.resolvePath s))
        else Except.ok (some (fs.resolvePath s))) = _
    rw [if_pos ⟨hex, hap⟩]
  · intro hor
    unfold checkExport
    rw [if_pos htr]
    show (if fs.pathExists (fs.resolvePath s) = true ∧ append ≠ Val.bool true
        then Except.error (ConfigError.fileExists (fs.resolvePath s))
        else Except.ok (some (fs.resolvePath s))) = _
    rw [if_neg ?_]
    rcases hor with hex | hap
    · rintro ⟨hex', -⟩
      rw [hex] at hex'
      exact Bool.false_ne_true hex'
    · rintro ⟨-, hap'⟩
      exact hap' hap
  · intro kwargs cfg h
    exact (construct_ok_inv fs kwargs cfg h).2.2.2.2.2

/-- Witness for C5: exporting to the existing path "X" without append
fails with FileExistsError. -/
theorem C5_export_exists_witness :
    ("X" ≠ "") ∧
    checkExport fsX (Val.str "X") (Val.bool false)
      = .error (.fileExists (fsX.resolvePath "X")) :=
  ⟨by decide,
    (C5_export_exists fsX "X" (Val.bool false) (by decide)).1
      (by decide) (by decide)⟩

/-- C6: for every Config constructed from a mapping of recognized
options, each omitted option takes its default value and each supplied
option takes the supplied value; with no options supplied, the conf is
exactly the default mapping (size_threshold 512, content_threshold 768,
dry_run False, export None) and hash_headers is the normalized 10-entry
default header list. -/
theorem C6_defaults (fs : FS) (kwargs : List (String × Val)) (cfg : Config)
    (h : construct fs kwargs = .ok cfg) :
    (∀ k d, List.lookup k defaultConf = some d →
      List.lookup k cfg.conf = some ((List.lookup k kwargs).getD d)) ∧
    construct fs [] = .ok cfgDefault ∧
    confGet cfgDefault.conf "size_threshold" = Val.int 512 ∧
    confGet cfgDefault.conf "content_threshold" = Val.int 768 ∧
    confGet cfgDefault.conf "dry_run" = Val.bool false ∧
    confGet cfgDefault.conf "export" = Val.none := by
  obtain ⟨-, hconf, -, -, -, -⟩ := construct_ok_inv fs kwargs cfg h
  refine ⟨?_, rfl, rfl, rfl, rfl, rfl⟩
  intro k d hd
  rw [hconf, lookup_mergeConf, hd]
  rfl

/-- Witness for C6: a supplied dry_run overrides the default. -/
theorem C6_defaults_witness :
    (construct fsE kwC6 = .ok cfgC6) ∧
    List.lookup "dry_run" cfgC6.conf
      = some ((List.lookup "dry_run" kwC6).getD (Val.bool false)) :=
  ⟨by decide,
    (C6_defaults fsE kwC6 cfgC6 (by decide)).1 "dry_run" (Val.bool false)
      (by decide)⟩

/-- C9 counterexample: on the Config constructed with no options, the
configuration mapping stores the original-case default header list under
the key "hash_headers", but attribute access on that name returns the
normalized instance attribute instead of the stored configuration
value. -/
theorem C9_counterexample :
    construct fsE [] = .ok cfgDefault ∧
    List.lookup "hash_headers" cfgDefault.conf
      = some (Val.strList HASH_HEADERS) ∧
    cfgDefault.getattr "hash_headers" ≠ .val (Val.strList HASH_HEADERS) := by
  refine ⟨rfl, rfl, ?_⟩
  decide

/-- C9 (amended): for every successfully constructed Config and every
attribute name that is neither a real data attribute nor a key of the
configuration mapping, attribute access returns None rather than
raising; for every conf key not shadowed by an instance attribute,
access returns the stored configuration value; the shadowed name
hash_headers returns the normalized instance attribute. -/
theorem C9_getattr (fs : FS) (kwargs : List (String × Val)) (cfg : Config)
    (h : construct fs kwargs = .ok cfg) (a : String) :
    (a ∉ cfg.realAttrs → List.lookup a cfg.conf = Option.none →
      cfg.getattr a = .pyNone) ∧
    (a ∉ cfg.realAttrs → ∀ v, List.lookup a cfg.conf = some v →
      cfg.getattr a = .val v) ∧
    cfg.getattr "hash_headers" = .val (.strList cfg.hash_headers) := by
  refine ⟨?_, ?_, by unfold Config.getattr; rw [if_neg (by decide), if_pos rfl]⟩
  all_goals
    intro hna
    simp only [Config.realAttrs, List.mem_append, List.mem_cons,
      List.not_mem_nil, or_false, not_or] at hna
    obtain ⟨⟨h1, h2, h3⟩, h4⟩ := hna
  · intro hlk
    unfold Config.getattr
    rw [if_neg h1, if_neg h2]
    by_cases he : a = "export"
    · subst he
      rw [if_pos rfl]
      cases hex : cfg.exportResolved with
      | none => rw [hlk]
      | some p =>
          rw [hex] at h4
          simp at h4
    · rw [if_neg he, if_neg h3, hlk]
  · intro v hlk
    unfold Config.getattr
    rw [if_neg h1, if_neg h2]
    by_cases he : a = "export"
    · subst he
      rw [if_pos rfl]
      cases hex : cfg.exportResolved with
      | none => rw [hlk]
      | some p =>
          rw [hex] at h4
          simp at h4
    · rw [if_neg he, if_neg h3, hlk]

/-- Witness for the amended C9: the stored None of the strategy option
and the absent name "missing" both come back as expected. -/
theorem C9_getattr_witness :
    (construct fsE [] = .ok cfgDefault) ∧
    cfgDefault.getattr "strategy" = .val Val.none :=
  ⟨by decide,
    (C9_getattr fsE [] cfgDefault (by decide) "strategy").2.1
      (by decide) Val.none (by decide)⟩

/-- C10: Config construction with a hash_headers list containing an
empty string always fails, and on a list consisting of the empty name
the failure is the ValueError of max() over an empty sequence, not a
stated configuration error. -/
theorem C10_empty_header_name (fs : FS) (kwargs : List (String × Val))
    (hsL : List String)
    (hk : List.lookup "hash_headers" kwargs = some (Val.strList hsL))
    (he : "" ∈ hsL) :
    (construct fs kwargs).isOk = false ∧
    construct fs [("hash_headers", Val.strList [""])]
      = .error .emptySequence := by
  refine ⟨?_, rfl⟩
  by_contra hok
  rw [Bool.not_eq_false, isOk_iff_ok] at hok
  obtain ⟨cfg, hcfg⟩ := hok
  obtain ⟨-, -, -, -, ⟨hs', hiter, -, hchk⟩, -⟩ :=
    construct_ok_inv fs kwargs cfg hcfg
  rw [confGet_hash_headers kwargs hsL hk] at hiter
  simp only [Val.iterStrs, Except.ok.injEq] at hiter
  subst hiter
  rw [checkHeaders_ok_iff] at hchk
  have hmem : lower "" ∈ unique (hsL.map lower) :=
    (mem_unique _ _).mpr (List.mem_map_of_mem lower he)
  have hok0 := hchk (lower "") hmem
  rw [checkHeader_ok_iff] at hok0
  exact hok0.1 ((lower_eq_empty_iff "").mpr rfl)

/-- Witness for C10 at the list ["date", ""]. -/
theorem C10_empty_header_name_witness :
    (List.lookup "hash_headers" [("hash_headers", Val.strList ["date", ""])]
        = some (Val.strList ["date", ""])) ∧
    ("" ∈ ["date", ""]) ∧
    ((construct fsE [("hash_headers", Val.strList ["date", ""])]).isOk = false ∧
      construct fsE [("hash_headers", Val.strList [""])]
        = .error .emptySequence) :=
  ⟨by decide, by decide,
    C10_empty_header_name fsE [("hash_headers", Val.strList ["date", ""])]
      ["date", ""] (by decide) (by decide)⟩

end MailDedup
